import Mathlib

/-!
Verification of the EC inventory optimizer's execution/replay core.

The Python sources embedded here:
* `calculate_actual_area` — identical copies in `executor_with_viz.py`,
  `realtime_visualizer.py` and `visualizer.py` (Geometry Engine);
* `draw_shape_patch`'s triangle-corner selection — identical copies in the
  same three files;
* `LivePackingVisualizer` state and its `place_item` method, plus the three
  module-level action handlers of `executor_with_viz.py`;
* the tool-dispatch loops of `executor_with_viz.py` (bounded `for` loop)
  and `executor.py` (unbounded `while True` loop);
* the replay statistics of `RealtimeVisualizer` in `realtime_visualizer.py`.

Numbers are modelled exactly: Python floats become `ℚ`, and `math.pi` is
the exact rational value of the IEEE-754 double that Python's `math.pi`
denotes.
-/

/-- The exact rational value of the IEEE-754 double `math.pi`
(`math.pi.as_integer_ratio() == (884279719003555, 2^48)`). -/
def mathPi : ℚ := 884279719003555 / 281474976710656

/-- Geometry Engine: `calculate_actual_area(shape, width, height)`.
Source: `executor_with_viz.py` lines 13–21 (identical copies at
`realtime_visualizer.py` 15–23 and `visualizer.py` 183–192).
`Triangle` → `width*height/2`; `Circle` → `pi*r*r` with
`r = min(width, height)/2`; anything else (including `Rectangle` and any
unknown shape string) falls through to `width*height`. The function takes
no rotation argument, so its result does not depend on rotation. -/
def calculate_actual_area (shape : String) (width height : ℚ) : ℚ :=
  if shape = "Triangle" then (width * height) / 2
  else if shape = "Circle" then
    let radius := min width height / 2
    mathPi * radius * radius
  else width * height

/-- Triangle corner selection of `draw_shape_patch` (source:
`visualizer.py` lines 39–46, identical in `executor_with_viz.py` 122–129
and `realtime_visualizer.py` 100–107): the list of the three polygon
vertices, by rotation; any rotation other than 90/180/270 falls to the
default (0°) branch. -/
def trianglePoints (x y width height : ℚ) (rotation : Int) : List (ℚ × ℚ) :=
  if rotation = 90 then [(x, y), (x + width, y), (x + width, y + height)]
  else if rotation = 180 then [(x + width, y), (x + width, y + height), (x, y + height)]
  else if rotation = 270 then [(x, y + height), (x + width, y + height), (x, y)]
  else [(x, y), (x + width, y), (x, y + height)]

/-- Planar dot product. -/
def dot (u v : ℚ × ℚ) : ℚ := u.1 * v.1 + u.2 * v.2

/-- Vector from `v` to `u`. -/
def vsub (u v : ℚ × ℚ) : ℚ × ℚ := (u.1 - v.1, u.2 - v.2)

/-- `v` is a vertex of the three-point polygon `pts` at which the two
incident edges are perpendicular (the right-angle vertex). -/
def isRightAngleVertex (pts : List (ℚ × ℚ)) (v : ℚ × ℚ) : Prop :=
  match pts with
  | [a, b, c] =>
      (v = a ∧ dot (vsub b a) (vsub c a) = 0) ∨
      (v = b ∧ dot (vsub a b) (vsub c b) = 0) ∨
      (v = c ∧ dot (vsub a c) (vsub b c) = 0)
  | _ => False

/-- An item record as stored by `LivePackingVisualizer.place_item`
(`executor_with_viz.py` lines 187–194). -/
structure PlacedItem where
  id : String
  shape : String
  x : ℚ
  y : ℚ
  width : ℚ
  height : ℚ
  price : ℚ
  rotation : Int
deriving DecidableEq, Repr

/-- The mutable state of `LivePackingVisualizer` (`executor_with_viz.py`
lines 27–54), restricted to the non-rendering fields: `bin_items` is the
dict `{1: [], 2: [], 3: [], 4: []}` built in `__init__` (modelled as an
association list), `current_bin` and `current_item` start as `None`, and
`total_value`/`packed_value` start at 0. -/
structure VizState where
  bin_items : List (Int × List PlacedItem)
  current_bin : Option Int
  current_item : Option String
  total_value : ℚ
  packed_value : ℚ
deriving DecidableEq, Repr

/-- The visualizer state as built by `LivePackingVisualizer.__init__`. -/
def VizState.init : VizState :=
  { bin_items := [(1, []), (2, []), (3, []), (4, [])]
    current_bin := none
    current_item := none
    total_value := 0
    packed_value := 0 }

/-- `self.bin_items[bin_id].append(item)` on the association-list model:
the entry whose key is `k` gets `v` appended. -/
def dictAppend (d : List (Int × List PlacedItem)) (k : Int) (v : PlacedItem) :
    List (Int × List PlacedItem) :=
  d.map (fun kv => if kv.1 = k then (kv.1, kv.2 ++ [v]) else kv)

/-- `self.bin_items[bin_id]` on the association-list model (the Python
dict always holds keys 1–4; a missing key is modelled as `[]`). -/
def dictGet (d : List (Int × List PlacedItem)) (k : Int) : List PlacedItem :=
  ((d.find? (fun kv => kv.1 == k)).map Prod.snd).getD []

namespace LivePackingVisualizer

/-- The state change of `LivePackingVisualizer.place_item`
(`executor_with_viz.py` lines 172–223): reject bin ids outside 1–4 with
an early return, otherwise append the item record to
`self.bin_items[bin_id]` and add the price to `self.packed_value`.
Drawing and titles are rendering-only and carry no further state. -/
def place_item (s : VizState) (item_id : String) (bin_id : Int) (x y width height : ℚ)
    (shape : String) (price : ℚ) (rotation : Int) : VizState :=
  if bin_id < 1 ∨ bin_id > 4 then s
  else
    { s with
      bin_items := dictAppend s.bin_items bin_id
        { id := item_id, shape := shape, x := x, y := y, width := width,
          height := height, price := price, rotation := rotation }
      packed_value := s.packed_value + price }

end LivePackingVisualizer

/-- The per-bin `area_used` display statistic recomputed on each placement
(`executor_with_viz.py` lines 201–202): sum of `calculate_actual_area`
over the items recorded in the bin. -/
def area_used (s : VizState) (bin_id : Int) : ℚ :=
  ((dictGet s.bin_items bin_id).map
    (fun item => calculate_actual_area item.shape item.width item.height)).sum

/-- The `unpacked_value` display statistic (`executor_with_viz.py`
line 213): `total_value - packed_value`. -/
def unpacked_value (s : VizState) : ℚ := s.total_value - s.packed_value

namespace executor_with_viz

/-- Action handler `pick_up` of `executor_with_viz.py` (lines 240–245):
unconditionally records the item as current via
`update_current_item` (when a visualizer exists) and returns the holding
confirmation. There is no failure path. -/
def pick_up (vs : Option VizState) (item_id : String) : Option VizState × String :=
  (vs.map (fun s => { s with current_item := some item_id }),
   s!"Successfully holding item '{item_id}'.")

/-- Action handler `move_to_bin` of `executor_with_viz.py`
(lines 247–252): unconditionally records the bin via `update_current_bin`
and returns the arrival confirmation. -/
def move_to_bin (vs : Option VizState) (bin_id : Int) : Option VizState × String :=
  (vs.map (fun s => { s with current_bin := some bin_id }),
   s!"Successfully arrived at bin #{bin_id}.")

/-- Action handler `place_item` of `executor_with_viz.py`
(lines 254–262): when a visualizer exists and `visualizer.current_bin`
is truthy (not `None` and not `0`), forwards to
`LivePackingVisualizer.place_item`; in every case it returns the same
success confirmation string. There is no failure path and
`current_item` is never consulted or cleared. -/
def place_item (vs : Option VizState) (item_id : String) (x y width height : ℚ)
    (shape : String) (price : ℚ) (rotation : Int) : Option VizState × String :=
  (match vs with
   | none => none
   | some s =>
     match s.current_bin with
     | none => some s
     | some b =>
       if b = 0 then some s
       else some (LivePackingVisualizer.place_item s item_id b x y width height shape price rotation),
   s!"Item '{item_id}' has been placed successfully.")

end executor_with_viz

namespace executor

/-- Action handler `pick_up` of the stateless `executor.py` (lines 11–15):
prints and returns the confirmation string; no state, no failure path. -/
def pick_up (item_id : String) : String :=
  s!"Successfully holding item '{item_id}'."

/-- Action handler `move_to_bin` of `executor.py` (lines 17–21). -/
def move_to_bin (bin_id : Int) : String :=
  s!"Successfully arrived at bin #{bin_id}."

/-- Action handler `place_item` of `executor.py` (lines 23–27): returns
the success confirmation unconditionally; no state, no failure path. -/
def place_item (item_id : String) (x y : ℚ) : String :=
  s!"Item '{item_id}' has been placed successfully."

end executor

/-- One tool invocation requested by the agent (only the function name is
relevant to dispatch accounting). -/
structure ToolCall where
  name : String
deriving DecidableEq, Repr

/-- One assistant reply: `content` is the truthiness of
`message.content`, `tool_calls` the requested invocations (Python's
`None` and `[]` are both modelled as `[]`). -/
structure AssistantMessage where
  content : Bool
  tool_calls : List ToolCall
deriving DecidableEq, Repr

/-- The tool table shared by both executors
(`available_tools` in `executor.py` lines 72–76 and
`executor_with_viz.py` lines 321–325). -/
def available_tools : List String := ["pick_up", "move_to_bin", "place_item"]

/-- How a dispatch-loop run ended. -/
inductive Outcome where
  | finished
  | incomplete
deriving DecidableEq, Repr

namespace executor_with_viz

/-- The loop bound `max_iterations = 200` of `executor_with_viz.py`
line 397. -/
def max_iterations : ℕ := 200

/-- `executor_with_viz.py`'s break test (line 411):
`assistant_message.content and not assistant_message.tool_calls`. -/
def isFinalMessage (m : AssistantMessage) : Bool :=
  m.content && m.tool_calls.isEmpty

/-- The dispatch loop of `executor_with_viz.py` `main` (lines 397–433):
`for iteration in range(max_iterations)`, fed by the opaque agent
`replies` (one reply per turn). A final message breaks the loop;
otherwise every requested call whose name is in `available_tools` is
dispatched to a handler. Returns the outcome, the number of turns taken,
and the number of handler invocations performed. -/
def vizLoop (replies : ℕ → AssistantMessage) :
    ℕ → ℕ → ℕ → Outcome × ℕ × ℕ
  | 0, iter, count => (Outcome.incomplete, iter, count)
  | fuel + 1, iter, count =>
    let m := replies iter
    if isFinalMessage m then (Outcome.finished, iter + 1, count)
    else vizLoop replies fuel (iter + 1)
      (count + (m.tool_calls.filter (fun c => available_tools.contains c.name)).length)

/-- Running the `executor_with_viz.py` dispatch loop from the start. -/
def runViz (replies : ℕ → AssistantMessage) : Outcome × ℕ × ℕ :=
  vizLoop replies max_iterations 0 0

theorem vizLoop_succ (replies : ℕ → AssistantMessage) (fuel iter count : ℕ) :
    vizLoop replies (fuel + 1) iter count =
      if isFinalMessage (replies iter) then (Outcome.finished, iter + 1, count)
      else vizLoop replies fuel (iter + 1)
        (count + ((replies iter).tool_calls.filter
          (fun c => available_tools.contains c.name)).length) := rfl

end executor_with_viz

namespace executor

/-- The dispatch loop of `executor.py` `main` (lines 150–189):
`while True`, breaking only when a reply carries no tool calls. The loop
has no iteration bound, so it is modelled with explicit fuel: `none`
means the loop is still running after `fuel` iterations; `some (t, c)`
means it broke after `t` turns having made `c` handler invocations. -/
def plainLoop (replies : ℕ → AssistantMessage) :
    ℕ → ℕ → ℕ → Option (ℕ × ℕ)
  | 0, _, _ => none
  | fuel + 1, iter, count =>
    let m := replies iter
    if m.tool_calls.isEmpty then some (iter + 1, count)
    else plainLoop replies fuel (iter + 1) (count + m.tool_calls.length)

theorem plainLoop_succ (replies : ℕ → AssistantMessage) (fuel iter count : ℕ) :
    plainLoop replies (fuel + 1) iter count =
      if (replies iter).tool_calls.isEmpty then some (iter + 1, count)
      else plainLoop replies fuel (iter + 1) (count + (replies iter).tool_calls.length) := rfl

end executor

/-- One item of the packing-plan JSON (§6 plan input), fields as read by
`realtime_visualizer.py` lines 63–74. -/
structure PlanItem where
  id : String
  x : ℚ
  y : ℚ
  width : ℚ
  height : ℚ
  shape : String
  price : ℚ
  rotation : Int
deriving DecidableEq, Repr

/-- One bin of the packing-plan JSON. -/
structure PlanBin where
  binId : Int
  items : List PlanItem
deriving DecidableEq, Repr

namespace realtime_visualizer

/-- One entry of `self.all_placements` (`realtime_visualizer.py`
lines 64–74). -/
structure Placement where
  bin_id : Int
  item_id : String
  x : ℚ
  y : ℚ
  width : ℚ
  height : ℚ
  shape : String
  price : ℚ
  rotation : Int
deriving DecidableEq, Repr

/-- `RealtimeVisualizer.__init__`'s flattening of the plan into
`self.all_placements`, bins then items in plan order
(`realtime_visualizer.py` lines 61–74). -/
def allPlacements (plan : List PlanBin) : List Placement :=
  (plan.map (fun bin_data => bin_data.items.map (fun item_data =>
    ({ bin_id := bin_data.binId, item_id := item_data.id, x := item_data.x,
       y := item_data.y, width := item_data.width, height := item_data.height,
       shape := item_data.shape, price := item_data.price,
       rotation := item_data.rotation } : Placement)))).flatten

/-- `items_in_bin` as computed by `update_plot` at a given step
(`realtime_visualizer.py` lines 192–193): the number of placements among
the first `step + 1` that went to `bin_id`. -/
def cumulativeItemsInBin (ps : List Placement) (step : ℕ) (bin_id : Int) : ℕ :=
  ((ps.take (step + 1)).filter (fun p => p.bin_id == bin_id)).length

/-- The overall progress fraction at a given step: `update_plot`
(`realtime_visualizer.py` line 212) computes
`progress = (step + 1) / len(self.all_placements) * 100` per cent; the
fraction is that quantity without the factor 100. -/
def overallProgressFraction (ps : List Placement) (step : ℕ) : ℚ :=
  ((step : ℚ) + 1) / (ps.length : ℚ)

end realtime_visualizer


/-- C4: for positive `w`, `h` (and independently of the rotation, which
`calculate_actual_area` does not take), the Triangle area is `w*h/2`, the
Circle area is `mathPi * (min w h / 2)^2`, and the Rectangle area — and
the area of any unknown shape string — is `w*h`. -/
theorem geometry_area_formulas (w h : ℚ) (rotation : Int) (hw : 0 < w) (hh : 0 < h) :
    calculate_actual_area "Triangle" w h = w * h / 2 ∧
    calculate_actual_area "Circle" w h = mathPi * (min w h / 2) ^ 2 ∧
    calculate_actual_area "Rectangle" w h = w * h ∧
    ∀ shape : String, shape ≠ "Triangle" → shape ≠ "Circle" →
      calculate_actual_area shape w h = w * h := by
  refine ⟨?_, ?_, ?_, ?_⟩
  · simp [calculate_actual_area]
  · simp [calculate_actual_area, (by decide : ("Circle" : String) ≠ "Triangle")]
    ring
  · simp [calculate_actual_area, (by decide : ("Rectangle" : String) ≠ "Triangle"),
      (by decide : ("Rectangle" : String) ≠ "Circle")]
  · intro shape h1 h2
    simp [calculate_actual_area, h1, h2]

/-- Witness for `geometry_area_formulas` at `w = 4`, `h = 2`,
`rotation = 90`. -/
theorem geometry_area_formulas_witness :
    (0 : ℚ) < 4 ∧ (0 : ℚ) < 2 ∧
    (calculate_actual_area "Triangle" 4 2 = 4 * 2 / 2 ∧
     calculate_actual_area "Circle" 4 2 = mathPi * (min 4 2 / 2) ^ 2 ∧
     calculate_actual_area "Rectangle" 4 2 = 4 * 2 ∧
     ∀ shape : String, shape ≠ "Triangle" → shape ≠ "Circle" →
       calculate_actual_area shape 4 2 = 4 * 2) :=
  ⟨by norm_num, by norm_num, geometry_area_formulas 4 2 90 (by norm_num) (by norm_num)⟩

/-- C6 counterexample: the default branch of `calculate_actual_area`
gives any unknown shape string the full bounding-box area, so equality
with `w*h` does not hold only for `"Rectangle"`: at `shape = "Square"`,
`w = h = 1`, the area equals `1*1` yet the shape is not `"Rectangle"`. -/
theorem area_bounding_equality_cex :
    ¬ (∀ (shape : String) (w h : ℚ), 0 < w → 0 < h →
        (calculate_actual_area shape w h ≤ w * h ∧
         (calculate_actual_area shape w h = w * h → shape = "Rectangle"))) := by
  intro H
  have h1 : calculate_actual_area "Square" 1 1 = 1 * 1 := by
    norm_num [calculate_actual_area, (by decide : ("Square" : String) ≠ "Triangle"),
      (by decide : ("Square" : String) ≠ "Circle")]
  have h2 := (H "Square" 1 1 one_pos one_pos).2 h1
  exact absurd h2 (by decide)

/-- C6 (amended): for every shape string and positive `w`, `h`, the
actual area is at most the bounding-box area `w*h`, with equality exactly
when the shape is neither `"Triangle"` nor `"Circle"` (that is, for
`"Rectangle"` and for every unknown shape string, both of which take the
default branch). -/
theorem area_le_bounding (shape : String) (w h : ℚ) (hw : 0 < w) (hh : 0 < h) :
    calculate_actual_area shape w h ≤ w * h ∧
    (calculate_actual_area shape w h = w * h ↔
      shape ≠ "Triangle" ∧ shape ≠ "Circle") := by
  have hwh : 0 < w * h := mul_pos hw hh
  by_cases hT : shape = "Triangle"
  · subst hT
    have harea : calculate_actual_area "Triangle" w h = w * h / 2 := by
      simp [calculate_actual_area]
    rw [harea]
    constructor
    · linarith
    · simp only [ne_eq, not_true_eq_false, false_and, iff_false]
      intro he
      linarith
  · by_cases hC : shape = "Circle"
    · subst hC
      have harea : calculate_actual_area "Circle" w h =
          mathPi * (min w h / 2) * (min w h / 2) := by
        simp [calculate_actual_area, (by decide : ("Circle" : String) ≠ "Triangle")]
      rw [harea]
      have hq : 0 < min w h := lt_min hw hh
      have hqw : min w h ≤ w := min_le_left w h
      have hqh : min w h ≤ h := min_le_right w h
      have h1 : min w h * min w h ≤ w * h := mul_le_mul hqw hqh hq.le hw.le
      have hm4 : mathPi < 4 := by norm_num [mathPi]
      have hm0 : 0 < mathPi := by norm_num [mathPi]
      have hlt : mathPi * (min w h / 2) * (min w h / 2) < w * h := by
        nlinarith [mul_pos hq hq]
      constructor
      · exact hlt.le
      · simp only [ne_eq, not_true_eq_false, and_false, iff_false]
        exact hlt.ne
    · have harea : calculate_actual_area shape w h = w * h := by
        simp [calculate_actual_area, hT, hC]
      rw [harea]
      exact ⟨le_refl _, by simp [hT, hC]⟩

/-- Witness for `area_le_bounding` at `shape = "Circle"`, `w = 4`,
`h = 2`. -/
theorem area_le_bounding_witness :
    (0 : ℚ) < 4 ∧ (0 : ℚ) < 2 ∧
    (calculate_actual_area "Circle" 4 2 ≤ 4 * 2 ∧
     (calculate_actual_area "Circle" 4 2 = 4 * 2 ↔
       ("Circle" : String) ≠ "Triangle" ∧ ("Circle" : String) ≠ "Circle")) :=
  ⟨by norm_num, by norm_num, area_le_bounding "Circle" 4 2 (by norm_num) (by norm_num)⟩

/-- C5: for every bounding box at `(x, y)` of positive size `w × h`, the
triangle polygon drawn by `draw_shape_patch` has its unique right-angle
vertex at `(x, y)` for rotation 0, `(x+w, y)` for rotation 90,
`(x+w, y+h)` for rotation 180, and `(x, y+h)` for rotation 270. -/
theorem triangle_right_angle_vertex (x y w h : ℚ) (hw : 0 < w) (hh : 0 < h) :
    (∀ v, isRightAngleVertex (trianglePoints x y w h 0) v ↔ v = (x, y)) ∧
    (∀ v, isRightAngleVertex (trianglePoints x y w h 90) v ↔ v = (x + w, y)) ∧
    (∀ v, isRightAngleVertex (trianglePoints x y w h 180) v ↔ v = (x + w, y + h)) ∧
    (∀ v, isRightAngleVertex (trianglePoints x y w h 270) v ↔ v = (x, y + h)) := by
  refine ⟨?_, ?_, ?_, ?_⟩
  · intro v
    have hpts : trianglePoints x y w h 0 = [(x, y), (x + w, y), (x, y + h)] := by
      norm_num [trianglePoints]
    rw [hpts]
    simp only [isRightAngleVertex, dot, vsub]
    constructor
    · rintro (⟨rfl, hd⟩ | ⟨rfl, hd⟩ | ⟨rfl, hd⟩)
      · rfl
      · exfalso; nlinarith
      · exfalso; nlinarith
    · rintro rfl
      exact Or.inl ⟨rfl, by ring⟩
  · intro v
    have hpts : trianglePoints x y w h 90 = [(x, y), (x + w, y), (x + w, y + h)] := by
      norm_num [trianglePoints]
    rw [hpts]
    simp only [isRightAngleVertex, dot, vsub]
    constructor
    · rintro (⟨rfl, hd⟩ | ⟨rfl, hd⟩ | ⟨rfl, hd⟩)
      · exfalso; nlinarith
      · rfl
      · exfalso; nlinarith
    · rintro rfl
      exact Or.inr (Or.inl ⟨rfl, by ring⟩)
  · intro v
    have hpts : trianglePoints x y w h 180 = [(x + w, y), (x + w, y + h), (x, y + h)] := by
      norm_num [trianglePoints]
    rw [hpts]
    simp only [isRightAngleVertex, dot, vsub]
    constructor
    · rintro (⟨rfl, hd⟩ | ⟨rfl, hd⟩ | ⟨rfl, hd⟩)
      · exfalso; nlinarith
      · rfl
      · exfalso; nlinarith
    · rintro rfl
      exact Or.inr (Or.inl ⟨rfl, by ring⟩)
  · intro v
    have hpts : trianglePoints x y w h 270 = [(x, y + h), (x + w, y + h), (x, y)] := by
      norm_num [trianglePoints]
    rw [hpts]
    simp only [isRightAngleVertex, dot, vsub]
    constructor
    · rintro (⟨rfl, hd⟩ | ⟨rfl, hd⟩ | ⟨rfl, hd⟩)
      · rfl
      · exfalso; nlinarith
      · exfalso; nlinarith
    · rintro rfl
      exact Or.inl ⟨rfl, by ring⟩

/-- Witness for `triangle_right_angle_vertex` at `x = 0`, `y = 0`,
`w = 4`, `h = 2`. -/
theorem triangle_right_angle_vertex_witness :
    (0 : ℚ) < 4 ∧ (0 : ℚ) < 2 ∧
    ((∀ v, isRightAngleVertex (trianglePoints 0 0 4 2 0) v ↔ v = (0, 0)) ∧
     (∀ v, isRightAngleVertex (trianglePoints 0 0 4 2 90) v ↔ v = (0 + 4, 0)) ∧
     (∀ v, isRightAngleVertex (trianglePoints 0 0 4 2 180) v ↔ v = (0 + 4, 0 + 2)) ∧
     (∀ v, isRightAngleVertex (trianglePoints 0 0 4 2 270) v ↔ v = (0, 0 + 2))) :=
  ⟨by norm_num, by norm_num,
   triangle_right_angle_vertex 0 0 4 2 (by norm_num) (by norm_num)⟩

/-- C1: evaluation of the code at the failing input. In the state where
no item is held (`current_item = None`) and the current bin is 1, the
handler `place_item("X", 0, 0, 4, 2, "Rectangle", 5, 0)` does not fail:
it records `"X"` in bin 1, adds the price to the packed total, and
returns the ordinary success confirmation. There is no `SequenceError`
path anywhere in the handler. -/
theorem place_item_out_of_sequence_records :
    executor_with_viz.place_item (some { VizState.init with current_bin := some 1 })
        "X" 0 0 4 2 "Rectangle" 5 0
      = (some ⟨[(1, [⟨"X", "Rectangle", 0, 0, 4, 2, 5, 0⟩]), (2, []), (3, []), (4, [])],
          some 1, none, 0, 5⟩,
         "Item 'X' has been placed successfully.") := by
  refine Prod.ext ?_ (by decide)
  norm_num [executor_with_viz.place_item, LivePackingVisualizer.place_item,
    dictAppend, VizState.init]

/-- C2 counterexample: with item `"A"` already held, `pick_up("B")` does
not leave `heldItem` unchanged (and raises nothing): it silently
overwrites `current_item` with `"B"`. -/
theorem pick_up_while_held_cex :
    ¬ (∀ (s : VizState) (item_id : String), s.current_item ≠ none →
        (executor_with_viz.pick_up (some s) item_id).1.map VizState.current_item
          = some s.current_item) := by
  intro H
  have h := H { VizState.init with current_item := some "A" } "B" (by simp [VizState.init])
  simp [executor_with_viz.pick_up, VizState.init] at h

/-- C2 (amended): `pick_up` never fails. For every visualizer state —
including any state in which another item is already held — it returns
the holding confirmation and overwrites `current_item` (the held item)
with the new item id. -/
theorem pick_up_always_overwrites (s : VizState) (item_id : String) :
    executor_with_viz.pick_up (some s) item_id
      = (some { s with current_item := some item_id },
         s!"Successfully holding item '{item_id}'.") := rfl

/-- C10: when the current bin id is outside 1–4, `place_item` leaves the
whole visualizer state (per-bin lists, packed total, everything)
unchanged, yet still returns the very same success confirmation string —
naming the item — that any other invocation (including a recording one)
returns. -/
theorem place_item_bin_out_of_range (s : VizState) (b : Int) (item_id : String)
    (x y width height : ℚ) (shape : String) (price : ℚ) (rotation : Int)
    (hbin : s.current_bin = some b) (hout : b < 1 ∨ 4 < b) :
    (executor_with_viz.place_item (some s) item_id x y width height shape price rotation).1
        = some s ∧
    ∀ vs' : Option VizState,
      (executor_with_viz.place_item (some s) item_id x y width height shape price rotation).2
        = (executor_with_viz.place_item vs' item_id x y width height shape price rotation).2 := by
  constructor
  · have h1 : (executor_with_viz.place_item (some s) item_id x y width height
        shape price rotation).1
        = if b = 0 then some s
          else some (LivePackingVisualizer.place_item s item_id b x y width height
            shape price rotation) := by
      simp [executor_with_viz.place_item, hbin]
    rw [h1]
    by_cases hb0 : b = 0
    · simp [hb0]
    · rw [if_neg hb0, LivePackingVisualizer.place_item, if_pos hout]
  · intro vs'
    rfl

/-- Witness for `place_item_bin_out_of_range`: current bin 7. -/
theorem place_item_bin_out_of_range_witness :
    (⟨[(1, []), (2, []), (3, []), (4, [])], some 7, none, 0, 0⟩ : VizState).current_bin
        = some 7 ∧
    ((7 : Int) < 1 ∨ 4 < (7 : Int)) ∧
    ((executor_with_viz.place_item
        (some ⟨[(1, []), (2, []), (3, []), (4, [])], some 7, none, 0, 0⟩)
        "X" 0 0 4 2 "Rectangle" 5 0).1
      = some ⟨[(1, []), (2, []), (3, []), (4, [])], some 7, none, 0, 0⟩ ∧
     ∀ vs' : Option VizState,
       (executor_with_viz.place_item
         (some ⟨[(1, []), (2, []), (3, []), (4, [])], some 7, none, 0, 0⟩)
         "X" 0 0 4 2 "Rectangle" 5 0).2
         = (executor_with_viz.place_item vs' "X" 0 0 4 2 "Rectangle" 5 0).2) :=
  ⟨rfl, by decide,
   place_item_bin_out_of_range _ 7 "X" 0 0 4 2 "Rectangle" 5 0 rfl (by decide)⟩

theorem dictGet_dictAppend_same (d : List (Int × List PlacedItem)) (k : Int) (v : PlacedItem)
    (hmem : k ∈ d.map Prod.fst) :
    dictGet (dictAppend d k v) k = dictGet d k ++ [v] := by
  induction d with
  | nil => simp at hmem
  | cons kv t ih =>
    have hstep : dictAppend (kv :: t) k v
        = (if kv.1 = k then (kv.1, kv.2 ++ [v]) else kv) :: dictAppend t k v := by
      simp [dictAppend]
    rw [hstep]
    by_cases hk : kv.1 = k
    · simp [dictGet, List.find?_cons, hk]
    · have hmem' : k ∈ t.map Prod.fst := by
        rw [List.map_cons] at hmem
        rcases List.mem_cons.mp hmem with h | h
        · exact absurd h.symm hk
        · exact h
      have hfalse : (kv.1 == k) = false := by simpa using hk
      simp only [if_neg hk]
      simp only [dictGet, List.find?_cons, hfalse]
      exact ih hmem'

/-- C3 counterexample. First part: in the state with `heldItem = "X"` and
`currentBin = 1` (the placement precondition), a successful
`place_item("X", ...)` does not clear the held item — `current_item` is
still `"X"` afterwards, never `None` — so the claim's "clears heldItem"
conjunct is false. Second part: with `heldItem = "X"` and
`currentBin = 7` (the precondition as claimed, bin merely set), the call
leaves the state completely unchanged — nothing is appended — so the
claimed append also needs `currentBin` to lie in 1–4. -/
theorem place_item_success_claim_cex :
    (¬ ∀ (s : VizState) (item_id : String) (b : Int) (x y width height : ℚ)
        (shape : String) (price : ℚ) (rotation : Int),
        s.current_bin = some b → s.current_item = some item_id →
        (executor_with_viz.place_item (some s) item_id x y width height shape price
            rotation).1.map VizState.current_item = some none) ∧
    (executor_with_viz.place_item
        (some ⟨[(1, []), (2, []), (3, []), (4, [])], some 7, some "X", 0, 0⟩)
        "X" 0 0 4 2 "Rectangle" 5 0).1
      = some ⟨[(1, []), (2, []), (3, []), (4, [])], some 7, some "X", 0, 0⟩ := by
  constructor
  · intro H
    have h := H ⟨[(1, []), (2, []), (3, []), (4, [])], some 1, some "X", 0, 0⟩
      "X" 1 0 0 4 2 "Rectangle" 5 0 rfl rfl
    simp [executor_with_viz.place_item, LivePackingVisualizer.place_item, dictAppend] at h
  · rfl

/-- C3 (amended): when the held item matches, the current bin is set and
its id lies in 1–4 (and the state carries the four bins built by
`__init__`), `place_item` appends the item with all supplied geometry to
the current bin's placed list, adds the price to the packed total so that
`unpacked_value = total_value - (packed_value + price)`, and the bin's
occupied area grows by the Geometry Engine area of the item; the held
item is left unchanged — the code never clears `current_item`. -/
theorem place_item_success (s : VizState) (item_id : String) (b : Int)
    (x y width height : ℚ) (shape : String) (price : ℚ) (rotation : Int)
    (hbin : s.current_bin = some b) (hb1 : 1 ≤ b) (hb4 : b ≤ 4)
    (hheld : s.current_item = some item_id)
    (hkeys : s.bin_items.map Prod.fst = [1, 2, 3, 4]) :
    ∃ s' : VizState,
      executor_with_viz.place_item (some s) item_id x y width height shape price rotation
        = (some s', s!"Item '{item_id}' has been placed successfully.") ∧
      dictGet s'.bin_items b = dictGet s.bin_items b ++
        [⟨item_id, shape, x, y, width, height, price, rotation⟩] ∧
      s'.current_item = some item_id ∧
      s'.packed_value = s.packed_value + price ∧
      area_used s' b = area_used s b + calculate_actual_area shape width height ∧
      unpacked_value s' = s.total_value - (s.packed_value + price) := by
  have hb0 : b ≠ 0 := by omega
  have hnout : ¬ (b < 1 ∨ b > 4) := by omega
  have hmem : b ∈ s.bin_items.map Prod.fst := by
    rw [hkeys]
    have : b = 1 ∨ b = 2 ∨ b = 3 ∨ b = 4 := by omega
    rcases this with rfl | rfl | rfl | rfl <;> simp
  have hs' : LivePackingVisualizer.place_item s item_id b x y width height shape price rotation
      = { s with
            bin_items := dictAppend s.bin_items b
              ⟨item_id, shape, x, y, width, height, price, rotation⟩
            packed_value := s.packed_value + price } := by
    rw [LivePackingVisualizer.place_item, if_neg hnout]
  refine ⟨LivePackingVisualizer.place_item s item_id b x y width height shape price rotation,
    ?_, ?_, ?_, ?_, ?_, ?_⟩
  · refine Prod.ext ?_ rfl
    simp [executor_with_viz.place_item, hbin, hb0]
  · rw [hs']
    exact dictGet_dictAppend_same s.bin_items b _ hmem
  · rw [hs', ← hheld]
  · rw [hs']
  · rw [hs']
    show area_used { s with
        bin_items := dictAppend s.bin_items b
          ⟨item_id, shape, x, y, width, height, price, rotation⟩
        packed_value := s.packed_value + price } b
      = area_used s b + calculate_actual_area shape width height
    unfold area_used
    rw [show ({ s with
        bin_items := dictAppend s.bin_items b
          ⟨item_id, shape, x, y, width, height, price, rotation⟩
        packed_value := s.packed_value + price } : VizState).bin_items
      = dictAppend s.bin_items b ⟨item_id, shape, x, y, width, height, price, rotation⟩ from rfl]
    rw [dictGet_dictAppend_same s.bin_items b _ hmem]
    simp
  · rw [hs']
    simp [unpacked_value]

/-- Witness for `place_item_success`: held item `"X"`, current bin 2. -/
theorem place_item_success_witness :
    (⟨[(1, []), (2, []), (3, []), (4, [])], some 2, some "X", 9, 1⟩ : VizState).current_bin
        = some 2 ∧
    (1 : Int) ≤ 2 ∧ (2 : Int) ≤ 4 ∧
    (⟨[(1, []), (2, []), (3, []), (4, [])], some 2, some "X", 9, 1⟩ : VizState).current_item
        = some "X" ∧
    (⟨[(1, []), (2, []), (3, []), (4, [])], some 2, some "X", 9, 1⟩ : VizState).bin_items.map
        Prod.fst = [1, 2, 3, 4] ∧
    (∃ s' : VizState,
      executor_with_viz.place_item
          (some ⟨[(1, []), (2, []), (3, []), (4, [])], some 2, some "X", 9, 1⟩)
          "X" 3 4 4 2 "Triangle" 5 90
        = (some s', "Item 'X' has been placed successfully.") ∧
      dictGet s'.bin_items 2
        = dictGet (⟨[(1, []), (2, []), (3, []), (4, [])], some 2, some "X", 9,
            1⟩ : VizState).bin_items 2 ++ [⟨"X", "Triangle", 3, 4, 4, 2, 5, 90⟩] ∧
      s'.current_item = some "X" ∧
      s'.packed_value = 1 + 5 ∧
      area_used s' 2
        = area_used (⟨[(1, []), (2, []), (3, []), (4, [])], some 2, some "X", 9,
            1⟩ : VizState) 2 + calculate_actual_area "Triangle" 4 2 ∧
      unpacked_value s' = 9 - (1 + 5)) :=
  ⟨rfl, by decide, by decide, rfl, rfl,
   place_item_success _ "X" 2 3 4 4 2 "Triangle" 5 90 rfl (by decide) (by decide) rfl rfl⟩

namespace executor_with_viz

theorem vizLoop_turns_le (replies : ℕ → AssistantMessage) :
    ∀ (fuel iter count : ℕ), (vizLoop replies fuel iter count).2.1 ≤ iter + fuel := by
  intro fuel
  induction fuel with
  | zero =>
    intro iter count
    simp [vizLoop]
  | succ n ih =>
    intro iter count
    rw [vizLoop_succ]
    by_cases h : isFinalMessage (replies iter)
    · rw [if_pos h]
      show iter + 1 <= iter + (n + 1)
      omega
    · rw [if_neg h]
      exact le_trans (ih (iter + 1) _) (by omega)

theorem vizLoop_no_final (replies : ℕ → AssistantMessage)
    (hnf : ∀ i, isFinalMessage (replies i) = false) :
    ∀ (fuel iter count : ℕ),
      ∃ c, vizLoop replies fuel iter count = (Outcome.incomplete, iter + fuel, c) := by
  intro fuel
  induction fuel with
  | zero =>
    intro iter count
    exact ⟨count, by simp [vizLoop]⟩
  | succ n ih =>
    intro iter count
    rw [vizLoop_succ, hnf iter]
    simp only [Bool.false_eq_true, if_false]
    obtain ⟨c, hc⟩ := ih (iter + 1)
      (count + ((replies iter).tool_calls.filter
        (fun c => available_tools.contains c.name)).length)
    have harith : iter + 1 + n = iter + (n + 1) := by omega
    rw [harith] at hc
    exact ⟨c, hc⟩

end executor_with_viz

namespace executor

theorem plainLoop_none_of_tools (replies : ℕ → AssistantMessage)
    (h : ∀ i, (replies i).tool_calls ≠ []) :
    ∀ (fuel iter count : ℕ), plainLoop replies fuel iter count = none := by
  intro fuel
  induction fuel with
  | zero =>
    intro iter count
    rfl
  | succ n ih =>
    intro iter count
    rw [plainLoop_succ]
    have hne : (replies iter).tool_calls.isEmpty = false := by
      simpa using h iter
    rw [hne]
    simp only [Bool.false_eq_true, if_false]
    exact ih (iter + 1) _

end executor

/-- C8 counterexample: the dispatch loop of `executor.py` is
`while True` with no iteration bound: against an agent that always
replies with one more tool call, the loop is still running after 201
iterations, so the "at most 200 iterations" claim fails for it (the 200
cap exists only in `executor_with_viz.py`). -/
theorem plain_loop_unbounded_cex :
    executor.plainLoop (fun _ => ⟨false, [⟨"place_item"⟩]⟩) 201 0 0 = none :=
  executor.plainLoop_none_of_tools _ (fun _ => by simp) 201 0 0

/-- C8 (amended): the `executor_with_viz.py` dispatch loop performs at
most `max_iterations = 200` turns for every reply sequence, and when the
agent never produces a final message it stops after exactly 200 turns
with the run reported incomplete — normal loop exit, not an exception.
(The `executor.py` loop, by contrast, is unbounded — see the
counterexample.) -/
theorem viz_loop_iteration_cap (replies : ℕ → AssistantMessage)
    (hnf : ∀ i, executor_with_viz.isFinalMessage (replies i) = false) :
    (∀ g : ℕ → AssistantMessage,
      (executor_with_viz.runViz g).2.1 ≤ executor_with_viz.max_iterations) ∧
    (executor_with_viz.runViz replies).1 = Outcome.incomplete ∧
    (executor_with_viz.runViz replies).2.1 = executor_with_viz.max_iterations := by
  refine ⟨fun g => executor_with_viz.vizLoop_turns_le g _ 0 0, ?_, ?_⟩
  · obtain ⟨c, hc⟩ := executor_with_viz.vizLoop_no_final replies hnf
      executor_with_viz.max_iterations 0 0
    rw [executor_with_viz.runViz, hc]
  · obtain ⟨c, hc⟩ := executor_with_viz.vizLoop_no_final replies hnf
      executor_with_viz.max_iterations 0 0
    rw [executor_with_viz.runViz, hc]
    simp

/-- Witness for `viz_loop_iteration_cap`: an agent that replies with one
tool call forever. -/
theorem viz_loop_iteration_cap_witness :
    (∀ i : ℕ, executor_with_viz.isFinalMessage
      ((fun _ => (⟨false, [⟨"pick_up"⟩]⟩ : AssistantMessage)) i) = false) ∧
    ((∀ g : ℕ → AssistantMessage,
       (executor_with_viz.runViz g).2.1 ≤ executor_with_viz.max_iterations) ∧
     (executor_with_viz.runViz
        (fun _ => (⟨false, [⟨"pick_up"⟩]⟩ : AssistantMessage))).1 = Outcome.incomplete ∧
     (executor_with_viz.runViz
        (fun _ => (⟨false, [⟨"pick_up"⟩]⟩ : AssistantMessage))).2.1
       = executor_with_viz.max_iterations) :=
  ⟨fun _ => rfl, viz_loop_iteration_cap _ (fun _ => rfl)⟩

/-- C9: when the agent's very first reply is a final message (truthy
content, no tool invocations), both dispatch loops terminate after that
single turn with zero handler invocations: the `executor_with_viz.py`
loop returns a finished run with turn count 1 and handler count 0, and
the `executor.py` loop breaks at once for any amount of fuel. -/
theorem first_reply_final_terminates (replies : ℕ → AssistantMessage)
    (hc : (replies 0).content = true) (ht : (replies 0).tool_calls = []) :
    executor_with_viz.runViz replies = (Outcome.finished, 1, 0) ∧
    ∀ fuel : ℕ, 1 ≤ fuel → executor.plainLoop replies fuel 0 0 = some (1, 0) := by
  constructor
  · rw [executor_with_viz.runViz,
      show executor_with_viz.max_iterations = 199 + 1 from rfl,
      executor_with_viz.vizLoop_succ]
    simp [executor_with_viz.isFinalMessage, hc, ht]
  · intro fuel hf
    obtain ⟨n, rfl⟩ : ∃ n, fuel = n + 1 := ⟨fuel - 1, by omega⟩
    rw [executor.plainLoop_succ]
    simp [ht]

/-- Witness for `first_reply_final_terminates`: the agent immediately
answers with final text. -/
theorem first_reply_final_terminates_witness :
    ((fun _ => (⟨true, []⟩ : AssistantMessage)) 0).content = true ∧
    ((fun _ => (⟨true, []⟩ : AssistantMessage)) 0).tool_calls = [] ∧
    (executor_with_viz.runViz (fun _ => (⟨true, []⟩ : AssistantMessage))
        = (Outcome.finished, 1, 0) ∧
     ∀ fuel : ℕ, 1 ≤ fuel →
       executor.plainLoop (fun _ => (⟨true, []⟩ : AssistantMessage)) fuel 0 0
         = some (1, 0)) :=
  ⟨rfl, rfl, first_reply_final_terminates _ rfl rfl⟩

/-- C7: after the Replay Driver walks all `N` placements of a plan in
plan order (`N > 0`), the cumulative per-bin item counts computed at the
final step sum — over the bin ids occurring in the plan — to `N`, and the
overall progress fraction at the final step is exactly 1. -/
theorem replay_totals (plan : List PlanBin)
    (hne : realtime_visualizer.allPlacements plan ≠ []) :
    (((realtime_visualizer.allPlacements plan).map
          realtime_visualizer.Placement.bin_id).dedup.map
        (fun b => realtime_visualizer.cumulativeItemsInBin
          (realtime_visualizer.allPlacements plan)
          ((realtime_visualizer.allPlacements plan).length - 1) b)).sum
      = (realtime_visualizer.allPlacements plan).length ∧
    realtime_visualizer.overallProgressFraction (realtime_visualizer.allPlacements plan)
      ((realtime_visualizer.allPlacements plan).length - 1) = 1 := by
  set ps := realtime_visualizer.allPlacements plan with hps
  have hN : 0 < ps.length := List.length_pos.mpr hne
  have htake : ps.take ((ps.length - 1) + 1) = ps := by
    rw [Nat.sub_add_cancel hN]
    exact List.take_length ps
  constructor
  · have hcount : ∀ b : Int,
        realtime_visualizer.cumulativeItemsInBin ps (ps.length - 1) b
          = (ps.map realtime_visualizer.Placement.bin_id).count b := by
      intro b
      rw [realtime_visualizer.cumulativeItemsInBin, htake, List.count,
        List.countP_map]
      exact (List.countP_eq_length_filter _ _).symm
    simp only [hcount]
    rw [List.sum_map_count_dedup_eq_length, List.length_map]
  · rw [realtime_visualizer.overallProgressFraction]
    have hcast : ((ps.length - 1 : ℕ) : ℚ) + 1 = ((ps.length : ℕ) : ℚ) := by
      rw_mod_cast [Nat.sub_add_cancel hN]
    rw [hcast]
    exact div_self (by exact_mod_cast hN.ne')

/-- Witness for `replay_totals`: a two-bin plan with three items. -/
theorem replay_totals_witness :
    realtime_visualizer.allPlacements
        [⟨1, [⟨"A", 0, 0, 4, 2, "Rectangle", 5, 0⟩, ⟨"B", 4, 0, 2, 2, "Circle", 3, 0⟩]⟩,
         ⟨2, [⟨"C", 0, 0, 3, 3, "Triangle", 7, 90⟩]⟩] ≠ [] ∧
    ((((realtime_visualizer.allPlacements
          [⟨1, [⟨"A", 0, 0, 4, 2, "Rectangle", 5, 0⟩, ⟨"B", 4, 0, 2, 2, "Circle", 3, 0⟩]⟩,
           ⟨2, [⟨"C", 0, 0, 3, 3, "Triangle", 7, 90⟩]⟩]).map
            realtime_visualizer.Placement.bin_id).dedup.map
          (fun b => realtime_visualizer.cumulativeItemsInBin
            (realtime_visualizer.allPlacements
              [⟨1, [⟨"A", 0, 0, 4, 2, "Rectangle", 5, 0⟩, ⟨"B", 4, 0, 2, 2, "Circle", 3, 0⟩]⟩,
               ⟨2, [⟨"C", 0, 0, 3, 3, "Triangle", 7, 90⟩]⟩])
            ((realtime_visualizer.allPlacements
              [⟨1, [⟨"A", 0, 0, 4, 2, "Rectangle", 5, 0⟩, ⟨"B", 4, 0, 2, 2, "Circle", 3, 0⟩]⟩,
               ⟨2, [⟨"C", 0, 0, 3, 3, "Triangle", 7, 90⟩]⟩]).length - 1) b)).sum
        = (realtime_visualizer.allPlacements
            [⟨1, [⟨"A", 0, 0, 4, 2, "Rectangle", 5, 0⟩, ⟨"B", 4, 0, 2, 2, "Circle", 3, 0⟩]⟩,
             ⟨2, [⟨"C", 0, 0, 3, 3, "Triangle", 7, 90⟩]⟩]).length ∧
     realtime_visualizer.overallProgressFraction
        (realtime_visualizer.allPlacements
          [⟨1, [⟨"A", 0, 0, 4, 2, "Rectangle", 5, 0⟩, ⟨"B", 4, 0, 2, 2, "Circle", 3, 0⟩]⟩,
           ⟨2, [⟨"C", 0, 0, 3, 3, "Triangle", 7, 90⟩]⟩])
        ((realtime_visualizer.allPlacements
          [⟨1, [⟨"A", 0, 0, 4, 2, "Rectangle", 5, 0⟩, ⟨"B", 4, 0, 2, 2, "Circle", 3, 0⟩]⟩,
           ⟨2, [⟨"C", 0, 0, 3, 3, "Triangle", 7, 90⟩]⟩]).length - 1) = 1) :=
  ⟨by simp [realtime_visualizer.allPlacements],
   replay_totals _ (by simp [realtime_visualizer.allPlacements])⟩
